import Mathlib

/-
  Verification of the agent-loop and chat-routing core of the
  Portfolio-agent repository (src/agents.py, src/chat_handler.py,
  src/tools.py, src/config.py).

  The Python code is shallowly embedded: pure functions become Lean
  functions, the external collaborators (OpenAI completion endpoint,
  json.loads, the tool registry whose entries hit the network, the
  stored profile context) are fields of an `Env` record, exceptions
  become `Except String`, Python floats become `Rat`, and the bounded
  `for iteration in range(self.max_iterations)` loop becomes structural
  recursion on fuel.
-/

namespace PortfolioAgent

-- ═══════════════════════════════════════════════════════════════════
-- JSON values (the decoded form of tool-call argument strings) and the
-- serialized error payloads produced by the agent loop.
-- ═══════════════════════════════════════════════════════════════════

/-- Decoded JSON values, as produced by `json.loads` on a tool-call
    arguments string.  The loop treats the decoded value opaquely (it is
    splatted into the tool function), so only the constructors needed to
    build concrete instances are included. -/
inductive Json where
  | str (s : String) : Json
  | obj (kvs : List (String × Json)) : Json

/-- Escaping applied by `json.dumps` to the characters that occur in
    error strings (backslash and double quote). -/
def jsonEscapeChar (c : Char) : String :=
  if c = '\\' then "\\\\"
  else if c = '"' then "\\\""
  else String.singleton c

/-- String-body escaping of `json.dumps`. -/
def jsonEscape (s : String) : String :=
  String.join (s.toList.map jsonEscapeChar)

/-- `json.dumps(\x7b"error": msg\x7d)` — the serialized one-key error object
    the agent loop substitutes for a failed or unknown tool
    (src/agents.py lines 132 and 135). -/
def errorDump (msg : String) : String :=
  "\x7b\"error\": \"" ++ jsonEscape msg ++ "\"\x7d"

/-- A string decodes as a JSON object carrying an `error` key exactly
    when it is the serialization of the loop's one-key error object. -/
def decodesWithErrorKey (s : String) : Prop :=
  ∃ msg, s = errorDump msg

-- ═══════════════════════════════════════════════════════════════════
-- Configuration constants (src/config.py)
-- ═══════════════════════════════════════════════════════════════════

/-- `DEFAULT_MODEL` (src/config.py line 13, the os.getenv default). -/
def DEFAULT_MODEL : String := "gpt-4o"

/-- `MAX_ITERATIONS` (src/config.py line 24). -/
def MAX_ITERATIONS : Nat := 15

/-- `MAX_CHAT_MESSAGES` (src/config.py line 26). -/
def MAX_CHAT_MESSAGES : Nat := 50

-- ═══════════════════════════════════════════════════════════════════
-- Python string methods used by the core, as structural per-character
-- functions (kernel-reducible counterparts of `String.toLower`,
-- `String.toUpper` and `String.trim`).
-- ═══════════════════════════════════════════════════════════════════

/-- Python `str.lower()`. -/
def pyLower (s : String) : String :=
  String.mk (s.toList.map Char.toLower)

/-- Python `str.upper()`. -/
def pyUpper (s : String) : String :=
  String.mk (s.toList.map Char.toUpper)

/-- Python `str.strip()`: remove leading and trailing whitespace. -/
def pyStrip (s : String) : String :=
  String.mk
    (((s.toList.dropWhile Char.isWhitespace).reverse.dropWhile
      Char.isWhitespace).reverse)

-- ═══════════════════════════════════════════════════════════════════
-- Conversation messages and the external collaborators (src/agents.py)
-- ═══════════════════════════════════════════════════════════════════

/-- One requested tool call inside a model response:
    `tool_call.id`, `tool_call.function.name`,
    `tool_call.function.arguments` (a JSON-encoded string). -/
structure ToolCall where
  id : String
  name : String
  arguments : String
deriving DecidableEq

/-- A model response message (`response.choices[0].message`):
    optional text content plus the list of requested tool calls
    (`None`/empty list are both modelled by `[]`, matching Python
    truthiness of `message.tool_calls`). -/
structure ModelMsg where
  content : Option String
  tool_calls : List ToolCall
deriving DecidableEq

/-- Conversation messages as built by `Agent.execute`: the dict messages
    for system/user/tool roles, and the raw SDK message object appended
    for an assistant turn that requested tool calls. -/
inductive Msg where
  | system (content : String) : Msg
  | user (content : String) : Msg
  | assistant (m : ModelMsg) : Msg
  | tool (tool_call_id : String) (content : String) : Msg
deriving DecidableEq

/-- `tool_call_id` field of a message (present only on tool-result
    messages). -/
def Msg.toolCallId : Msg → Option String
  | .tool tcid _ => some tcid
  | _ => none

/-- The external collaborators of the core: the chat-completion endpoint
    (taking the model name and the conversation), `json.loads` on an
    arguments string, the `TOOL_FUNCTIONS` registry (each entry is a
    network-backed function that may raise), the classification
    completion used by `classify_intent` (question, model), and the
    profile context string returned by `get_profile_context()` (empty
    string models an unconfigured profile). An `Except.error` models a
    raised exception. -/
structure Env where
  completions : String → List Msg → Except String ModelMsg
  jsonLoads : String → Except String Json
  toolFn : String → Option (Json → Except String String)
  classify : String → String → Except String String
  profileCtx : String

/-- The result string for one requested call once its arguments have
    been decoded: look the name up in `TOOL_FUNCTIONS`; an unknown name
    or a raised exception is serialized as an error payload
    (src/agents.py lines 127-135). -/
def callResult (env : Env) (name : String) (v : Json) : String :=
  match env.toolFn name with
  | some fn =>
      match fn v with
      | .ok result => result
      | .error e => errorDump e
  | none => errorDump ("Unknown tool: " ++ name)

/-- The inner `for tool_call in message.tool_calls` loop
    (src/agents.py lines 121-141): decode the arguments with
    `json.loads` (line 123 — outside the try block, so a decode failure
    propagates as `Except.error`), compute the result, and append one
    tool-result message tagged with the originating call id. -/
def processToolCalls (env : Env) : List ToolCall → List Msg → Except String (List Msg)
  | [], messages => .ok messages
  | tc :: rest, messages =>
      match env.jsonLoads tc.arguments with
      | .error e => .error e
      | .ok v =>
          processToolCalls env rest
            (messages ++ [Msg.tool tc.id (callResult env tc.name v)])

/-- Outcome of the agent loop, instrumented with the final conversation
    and the number of completed request/response rounds (the iteration
    counter logged at src/agents.py line 103). -/
inductive ExecResult where
  | done (answer : String) (conv : List Msg) (rounds : Nat) : ExecResult
  | exhausted (conv : List Msg) (rounds : Nat) : ExecResult
  | raised (err : String) (rounds : Nat) : ExecResult
deriving DecidableEq

/-- Number of request/response rounds performed (completion calls
    issued, counting a round whose completion or tool processing
    raised). -/
def ExecResult.rounds : ExecResult → Nat
  | .done _ _ r => r
  | .exhausted _ r => r
  | .raised _ r => r

/-- The conversation held when the loop stopped (`messages` at the
    return point; empty for a propagated exception, where the list is
    discarded). -/
def ExecResult.conv : ExecResult → List Msg
  | .done _ conv _ => conv
  | .exhausted conv _ => conv
  | .raised _ _ => []

/-- Whether the loop stopped by exhausting its iteration budget. -/
def ExecResult.isExhausted : ExecResult → Bool
  | .exhausted _ _ => true
  | _ => false

/-- Default string of `messages[-1].get("content", ...)` at
    src/agents.py line 150. -/
def degradedDefault : String :=
  "Agent hat die maximale Anzahl an Iterationen erreicht."

/-- `message.get("content", default)` on a conversation message.  The
    dict messages (system/user/tool) always carry their content; the
    assistant branch is unreachable at line 150 because a round that
    appended an assistant message always appends tool messages after
    it. -/
def Msg.contentGet (m : Msg) : String :=
  match m with
  | .system c => c
  | .user c => c
  | .assistant mm => mm.content.getD degradedDefault
  | .tool _ c => c

/-- `messages[-1].get("content", "Agent hat die maximale Anzahl an
    Iterationen erreicht.")` (src/agents.py line 150); the empty-list
    branch is unreachable (the conversation starts with two
    messages). -/
def lastContent (messages : List Msg) : String :=
  match messages.getLast? with
  | some m => m.contentGet
  | none => degradedDefault

/-- The `for iteration in range(self.max_iterations)` loop of
    `Agent.execute` (src/agents.py lines 102-150) as structural
    recursion on the remaining fuel, carrying the conversation and the
    count of rounds already performed. -/
def executeAux (env : Env) (model : String) : Nat → List Msg → Nat → ExecResult
  | 0, messages, rounds => .exhausted messages rounds
  | fuel + 1, messages, rounds =>
      match env.completions model messages with
      | .error e => .raised e (rounds + 1)
      | .ok message =>
          if message.tool_calls.isEmpty then
            .done (message.content.getD "") messages (rounds + 1)
          else
            match processToolCalls env message.tool_calls
                (messages ++ [Msg.assistant message]) with
            | .error e => .raised e (rounds + 1)
            | .ok messages' => executeAux env model fuel messages' (rounds + 1)

/-- The `Agent` dataclass (src/agents.py lines 29-48). -/
structure Agent where
  role : String
  goal : String
  backstory : String
  tool_group : String
  model : String
  max_iterations : Nat

/-- `Agent.system_prompt` (src/agents.py lines 55-78): identity text
    plus the injected profile context when one is configured. -/
def Agent.system_prompt (a : Agent) (env : Env) : String :=
  let base :=
    "Du bist ein " ++ a.role ++ ".\n\n" ++
    "**Ziel:** " ++ a.goal ++ "\n\n" ++
    "**Hintergrund:** " ++ a.backstory ++ "\n\n" ++
    "Anweisungen:\n" ++
    "- Nutze die verfuegbaren Tools, um Daten zu sammeln, bevor du Schlussfolgerungen ziehst.\n" ++
    "- Sei gruendlich, datengetrieben und professionell.\n" ++
    "- Formatiere deine Antwort in sauberem Markdown.\n" ++
    "- Nenne immer konkrete Zahlen und Kennzahlen aus den Tools.\n" ++
    "- Du antwortest IMMER auf Deutsch.\n"
  if env.profileCtx ≠ "" then base ++ "\n\n" ++ env.profileCtx ++ "\n" else base

/-- The initial two-message conversation of `Agent.execute`
    (src/agents.py lines 95-98). -/
def Agent.initMessages (a : Agent) (env : Env) (task : String) : List Msg :=
  [Msg.system (a.system_prompt env), Msg.user task]

/-- Instrumented run of `Agent.execute` (src/agents.py lines 80-150):
    the loop on the initial conversation with `max_iterations` fuel,
    using `model_override or self.model`. -/
def Agent.executeResult (a : Agent) (env : Env) (task : String)
    (model_override : Option String) : ExecResult :=
  executeAux env (model_override.getD a.model) a.max_iterations
    (a.initMessages env task) 0

/-- Observable behavior of `Agent.execute`: the final text on a normal
    return, `messages[-1].get("content", ...)` on iteration exhaustion
    (line 150), and a propagated exception otherwise. -/
def Agent.execute (a : Agent) (env : Env) (task : String)
    (model_override : Option String) : Except String String :=
  match a.executeResult env task model_override with
  | .done answer _ _ => .ok answer
  | .exhausted conv _ => .ok (lastContent conv)
  | .raised e _ => .error e

-- ═══════════════════════════════════════════════════════════════════
-- Chat handler (src/chat_handler.py)
-- ═══════════════════════════════════════════════════════════════════

/-- A persisted chat record (src/chat_handler.py lines 57-68):
    role, content, timestamp, optional agent_type. -/
structure ChatMessage where
  role : String
  content : String
  timestamp : String
  agent_type : Option String
deriving DecidableEq

/-- `load_chat_history` (src/chat_handler.py lines 35-42), with the file
    system abstracted as an optional stored list: `none` models a
    missing or undecodable file (the caught FileNotFoundError /
    JSONDecodeError branch); otherwise the stored log truncated to its
    last `MAX_CHAT_MESSAGES` entries (`history[-MAX_CHAT_MESSAGES:]`). -/
def load_chat_history (file : Option (List ChatMessage)) : List ChatMessage :=
  match file with
  | some history => history.drop (history.length - MAX_CHAT_MESSAGES)
  | none => []

/-- `save_chat_history` (src/chat_handler.py lines 45-49): the value
    written to disk, namely `history[-MAX_CHAT_MESSAGES:]`. -/
def save_chat_history (history : List ChatMessage) : List ChatMessage :=
  history.drop (history.length - MAX_CHAT_MESSAGES)

/-- `news_words` (src/chat_handler.py lines 121-122). -/
def news_words : List String :=
  ["news", "nachrichten", "aktuell", "heute", "kuerzlich",
   "headline", "schlagzeile", "ereignis", "quartals", "meldung"]

/-- `portfolio_words` (src/chat_handler.py lines 124-125). -/
def portfolio_words : List String :=
  ["portfolio", "positionen", "rendite", "performance",
   "konzentration", "diversifik", "rebalancing", "allokation",
   "meine aktien", "mein depot", "holdings", "risiko meines"]

/-- `research_words` (src/chat_handler.py lines 126-128). -/
def research_words : List String :=
  ["kaufen", "verkaufen", "halten", "kursziel", "analyse",
   "bewertung", "fundamental", "soll ich", "lohnt sich",
   "unterbewertet", "ueberbewertet", "buy", "sell", "hold"]

/-- Python's substring test `w in q`. -/
def containsWord (q w : String) : Bool :=
  decide (List.IsInfix w.toList q.toList)

/-- `sum(1 for w in words if w in q)` (src/chat_handler.py
    lines 130-132). -/
def scoreOf (words : List String) (q : String) : Nat :=
  (words.filter (fun w => containsWord q w)).length

/-- `_keyword_classify` (src/chat_handler.py lines 117-142): the
    deterministic fallback classifier. -/
def keyword_classify (question : String) : String :=
  let q := pyLower question
  let news_score := scoreOf news_words q
  let portfolio_score := scoreOf portfolio_words q
  let research_score := scoreOf research_words q
  let max_score := max news_score (max portfolio_score research_score)
  if max_score == 0 then "research"
  else if news_score == max_score then "news"
  else if portfolio_score == max_score then "portfolio"
  else "research"

/-- `classify_intent` (src/chat_handler.py lines 75-114): ask the
    classification completion; accept its stripped, lower-cased label
    only when it is one of the four categories; any transport failure or
    unexpected label falls back to `_keyword_classify`. -/
def classify_intent (env : Env) (question : String) (model : String) : String :=
  match env.classify question model with
  | .ok content =>
      let intent := pyLower (pyStrip content)
      if intent == "research" || intent == "news" ||
         intent == "portfolio" || intent == "multi" then intent
      else keyword_classify question
  | .error _ => keyword_classify question

/-- The `multi` downgrade at src/chat_handler.py lines 200-201. -/
def resolveIntent (intent : String) : String :=
  if intent == "multi" then "research" else intent

/-- The intent `handle_chat_message` resolves before agent selection:
    classification (with the `model or "gpt-4o-mini"` default of
    line 198) followed by the `multi` downgrade. -/
def resolvedIntentOf (env : Env) (question : String)
    (model : Option String) : String :=
  resolveIntent (classify_intent env question (model.getD "gpt-4o-mini"))

/-- `create_research_agent` (src/agents.py lines 157-177). -/
def create_research_agent (model : Option String) : Agent :=
  { role := "Senior Investment Analyst"
    goal :=
      "Liefere tiefgehende, umsetzbare Fundamentalanalysen von Aktien. " ++
      "Bewerte die finanzielle Gesundheit, das Wachstumspotenzial, die Wettbewerbsposition " ++
      "und Risikofaktoren, um eine klare Anlageempfehlung abzugeben."
    backstory :=
      "Du bist ein erfahrener Investment-Analyst mit ueber 15 Jahren Erfahrung an der Wall Street. " ++
      "Du bist spezialisiert auf die Identifikation von High-Growth-Chancen, insbesondere in den " ++
      "Bereichen Raumfahrttechnologie, Robotik, KI und aufstrebende Tech-Sektoren. Du hast ein " ++
      "scharfes Auge fuer Micro-Cap-Wachstumsaktien unter $10 mit 10x-Potenzial und " ++
      "konzentrierst dich auf 5-10 Jahre Anlagehorizont. Deine Analysen sind gruendlich, " ++
      "datenbasiert und bei Portfoliomanagern hoch angesehen. " ++
      "Du antwortest immer auf Deutsch."
    tool_group := "research"
    model := model.getD DEFAULT_MODEL
    max_iterations := MAX_ITERATIONS }

/-- `create_news_agent` (src/agents.py lines 180-200). -/
def create_news_agent (model : Option String) : Agent :=
  { role := "Finanz-Nachrichtenanalyst"
    goal :=
      "Ueberwache, filtere und fasse die relevantesten Finanznachrichten " ++
      "fuer bestimmte Aktien zusammen. Bewerte die potenzielle Auswirkung jeder Nachricht " ++
      "auf die Kursentwicklung und liefere umsetzbare Erkenntnisse."
    backstory :=
      "Du bist ein erfahrener Finanzjournalist, der zum Analysten wurde, mit tiefen " ++
      "Verbindungen in die Medienlandschaft. Du verfolgst Breaking News, Quartalsberichte, " ++
      "regulatorische Aenderungen und Marktereignisse, die Aktienkurse bewegen. " ++
      "Du zeichnest dich darin aus, Signal von Rauschen zu trennen, wesentliche " ++
      "Informationen zu identifizieren und einzuschaetzen, wie Nachrichten die " ++
      "Anlegerstimmung und Aktienbewertungen beeinflussen. " ++
      "Du antwortest immer auf Deutsch."
    tool_group := "news"
    model := model.getD DEFAULT_MODEL
    max_iterations := MAX_ITERATIONS }

/-- `create_portfolio_monitor_agent` (src/agents.py lines 203-222). -/
def create_portfolio_monitor_agent (model : Option String) : Agent :=
  { role := "Portfolio Manager"
    goal :=
      "Ueberwache das aktuelle Portfolio, berechne Performance-Kennzahlen, " ++
      "identifiziere Top- und Underperformer, bewerte das Gesamtrisiko " ++
      "und gib strategische Empfehlungen zur Portfolio-Optimierung."
    backstory :=
      "Du bist ein zertifizierter Portfolio-Manager mit Expertise in Risikomanagement " ++
      "und Asset Allocation. Du ueberwachst Positionen in Echtzeit, verfolgst Einstandskurse " ++
      "und Renditen, identifizierst Konzentrationsrisiken und schlaegst Rebalancing-Strategien " ++
      "vor. Du kommunizierst die Portfolio-Gesundheit in klaren, praegnanten Berichten, " ++
      "die Anlegern helfen, fundierte Entscheidungen zu treffen. " ++
      "Du antwortest immer auf Deutsch."
    tool_group := "portfolio"
    model := model.getD DEFAULT_MODEL
    max_iterations := MAX_ITERATIONS }

/-- The `agent_creators` dispatch with its `.get(intent,
    create_research_agent)` default (src/chat_handler.py
    lines 203-208). -/
def agent_creators (intent : String) : Option String → Agent :=
  if intent == "research" then create_research_agent
  else if intent == "news" then create_news_agent
  else if intent == "portfolio" then create_portfolio_monitor_agent
  else create_research_agent

/-- `_build_chat_task` (src/chat_handler.py lines 149-183): profile
    context, the last six history entries with user/assistant roles
    truncated to 300 characters and labeled by speaker, the current
    question block, and the fixed instruction text, joined by
    newlines.  (The `agent_type` parameter is unused, as in the
    source.) -/
def build_chat_task (env : Env) (question : String) (_agent_type : String)
    (chat_history : List ChatMessage) : String :=
  let profile_ctx := env.profileCtx
  let recent := (chat_history.drop (chat_history.length - 6)).filter
    (fun m => m.role == "user" || m.role == "assistant")
  let context_lines := recent.map
    (fun m => (if m.role == "user" then "Nutzer" else "Agent") ++ ": " ++
      m.content.take 300)
  let task_parts : List String :=
    (if profile_ctx ≠ "" then [profile_ctx] else []) ++
    (if context_lines ≠ [] then
      ["LETZTER GESPRAECHSVERLAUF:"] ++ context_lines ++ [""]
     else []) ++
    ["AKTUELLE FRAGE DES NUTZERS:", question, "",
     "Anweisungen: Antworte gespraechisg aber professionell auf Deutsch. " ++
     "Nutze deine Tools, um echte Daten abzurufen, wenn relevant. " ++
     "Sei konkret mit Zahlen und Datenpunkten. " ++
     "Halte die Antwort fokussiert und praegnant (unter 500 Woerter). " ++
     "Wenn das Anlageprofil des Nutzers vorhanden ist, passe deine Antwort an seine Praeferenzen an."]
  String.intercalate "\n" task_parts

/-- Prefix of the apologetic message built at src/chat_handler.py
    line 218. -/
def apologyPrefix : String :=
  "Entschuldigung, bei der Verarbeitung deiner Frage ist ein Fehler aufgetreten: "

/-- `handle_chat_message` (src/chat_handler.py lines 186-220): classify
    and downgrade the intent, instantiate the matching agent, build the
    task, execute, and convert an execution exception into the
    apologetic message; returns `(response, intent)`. -/
def handle_chat_message (env : Env) (question : String)
    (chat_history : List ChatMessage) (model : Option String) : String × String :=
  let intent := resolvedIntentOf env question model
  let agent := agent_creators intent model
  let task := build_chat_task env question intent chat_history
  match agent.execute env task model with
  | .ok response => (response, intent)
  | .error e => (apologyPrefix ++ e, intent)

-- ═══════════════════════════════════════════════════════════════════
-- Portfolio management (src/tools.py lines 422-473)
-- ═══════════════════════════════════════════════════════════════════

/-- A portfolio holding as stored in portfolio.json: ticker, shares,
    the current `cost_basis_eur` key, the legacy `cost_basis` key, and
    `date_added`; the optional fields model dict keys that may be
    absent. -/
structure Holding where
  ticker : String
  shares : Rat
  cost_basis_eur : Option Rat
  cost_basis : Option Rat
  date_added : Option String
deriving DecidableEq

/-- `holding.get("cost_basis_eur", holding.get("cost_basis", 0))`
    (src/tools.py line 445). -/
def Holding.costBasis (h : Holding) : Rat :=
  h.cost_basis_eur.getD (h.cost_basis.getD 0)

/-- Python's `round(x, 4)` over the embedded rationals: round to four
    decimal places (tie direction immaterial to the claims, which use
    this same function on both sides). -/
def round4 (x : Rat) : Rat :=
  ((round (x * 10000) : Int) : Rat) / 10000

/-- The return messages of the portfolio write operations
    (the German format strings at src/tools.py lines 453, 462, 471 and
    473, with the numeric `:.2f` rendering abstracted into the message
    payload). -/
inductive PortfolioMsg where
  | updated (ticker : String) (new_total : Rat) (avg_cost : Rat) : PortfolioMsg
  | added (ticker : String) (shares : Rat) (cost_basis_eur : Rat) : PortfolioMsg
  | removed (ticker : String) : PortfolioMsg
  | notFound (ticker : String) : PortfolioMsg
deriving DecidableEq

/-- The `for holding in portfolio` search-and-update loop of
    `add_to_portfolio` (src/tools.py lines 442-453): `none` means no
    holding matched (the loop fell through); on the first match the
    holding is updated in place with the share-weighted average cost
    (a zero combined position raises ZeroDivisionError, modelled as
    `Except.error`). -/
def add_loop (ticker : String) (shares cost_basis_eur : Rat) :
    List Holding → Option (Except String (List Holding × PortfolioMsg))
  | [] => none
  | h :: rest =>
      if h.ticker == ticker then
        let old_shares := h.shares
        let old_cost := h.costBasis
        let new_total := old_shares + shares
        if new_total = 0 then some (.error "float division by zero")
        else
          let new_cost :=
            round4 ((old_shares * old_cost + shares * cost_basis_eur) / new_total)
          some (.ok
            ({ h with cost_basis_eur := some new_cost,
                      shares := new_total,
                      cost_basis := none } :: rest,
             PortfolioMsg.updated ticker new_total new_cost))
      else
        match add_loop ticker shares cost_basis_eur rest with
        | none => none
        | some (.error e) => some (.error e)
        | some (.ok (rest', m)) => some (.ok (h :: rest', m))

/-- `add_to_portfolio` (src/tools.py lines 437-462), with the file
    system abstracted into the loaded portfolio argument and the saved
    portfolio in the result: normalize the ticker with
    `.upper().strip()`, update the first matching holding, or append a
    new one stamped with today's date. -/
def add_to_portfolio (portfolio : List Holding) (ticker : String)
    (shares cost_basis_eur : Rat) (today : String) :
    Except String (List Holding × PortfolioMsg) :=
  let t := pyStrip (pyUpper ticker)
  match add_loop t shares cost_basis_eur portfolio with
  | some res => res
  | none =>
      .ok (portfolio ++
        [{ ticker := t, shares := shares,
           cost_basis_eur := some (round4 cost_basis_eur),
           cost_basis := none, date_added := some today }],
        PortfolioMsg.added t shares cost_basis_eur)

/-- `remove_from_portfolio` (src/tools.py lines 465-473): filter out the
    normalized ticker; when nothing was removed return the not-found
    message without saving (`none` in the first component models the
    absent `save_portfolio` call); otherwise save the filtered list. -/
def remove_from_portfolio (portfolio : List Holding) (ticker : String) :
    Option (List Holding) × PortfolioMsg :=
  let t := pyStrip (pyUpper ticker)
  let new_portfolio := portfolio.filter (fun h => h.ticker != t)
  if new_portfolio.length == portfolio.length then
    (none, PortfolioMsg.notFound t)
  else
    (some new_portfolio, PortfolioMsg.removed t)

-- ═══════════════════════════════════════════════════════════════════
-- Concrete instances of the external collaborators, used to evaluate
-- the theorems on closed inputs.
-- ═══════════════════════════════════════════════════════════════════

/-- A tool call requesting the portfolio tool with empty-object
    arguments. -/
def tcW : ToolCall :=
  { id := "call_1", name := "get_portfolio_data", arguments := "\x7b\x7d" }

/-- A model response that requests exactly one tool call. -/
def msgW : ModelMsg := { content := none, tool_calls := [tcW] }

/-- An endpoint that always requests a tool call, with decodable
    arguments and an empty tool registry. -/
def envAlwaysTool : Env :=
  { completions := fun _ _ => .ok msgW
    jsonLoads := fun _ => .ok (Json.obj [])
    toolFn := fun _ => none
    classify := fun _ _ => .error "offline"
    profileCtx := "" }

/-- An endpoint whose completion call always raises. -/
def envTransportFail : Env :=
  { completions := fun _ _ => .error "boom"
    jsonLoads := fun _ => .ok (Json.obj [])
    toolFn := fun _ => none
    classify := fun _ _ => .error "offline"
    profileCtx := "" }

/-- An endpoint that requests a tool call whose arguments string is not
    valid JSON, so that `json.loads` raises; the requested tool exists
    and succeeds, isolating the decode failure. -/
def envBadArgs : Env :=
  { completions := fun _ _ => .ok
      { content := none
        tool_calls := [{ id := "call_1", name := "get_stock_data",
                         arguments := "not json" }] }
    jsonLoads := fun _ => .error "Expecting value: line 1 column 1 (char 0)"
    toolFn := fun _ => some (fun _ => .ok "ok")
    classify := fun _ _ => .error "offline"
    profileCtx := "" }

/-- A classification endpoint that returns the label `multi`. -/
def envMulti : Env :=
  { completions := fun _ _ => .error "offline"
    jsonLoads := fun _ => .ok (Json.obj [])
    toolFn := fun _ => none
    classify := fun _ _ => .ok "multi"
    profileCtx := "" }

/-- A concrete agent (the research agent with its default model and
    `MAX_ITERATIONS = 15`). -/
def agentW : Agent := create_research_agent none

/-- A concrete stored holding. -/
def holdingW : Holding :=
  { ticker := "AAPL", shares := 1, cost_basis_eur := some 10,
    cost_basis := none, date_added := some "2024-01-01" }

-- ═══════════════════════════════════════════════════════════════════
-- Helper lemmas about the agent loop
-- ═══════════════════════════════════════════════════════════════════

theorem executeAux_rounds_le (env : Env) (model : String) :
    ∀ (fuel : Nat) (msgs : List Msg) (r : Nat),
      (executeAux env model fuel msgs r).rounds ≤ r + fuel := by
  intro fuel
  induction fuel with
  | zero =>
      intro msgs r
      simp [executeAux, ExecResult.rounds]
  | succ fuel ih =>
      intro msgs r
      simp only [executeAux]
      cases hm : env.completions model msgs with
      | error e => simp [ExecResult.rounds]
      | ok m =>
          by_cases hie : m.tool_calls.isEmpty
          · simp [hie, ExecResult.rounds]
          · simp only [hie, if_false, Bool.false_eq_true]
            cases hp : processToolCalls env m.tool_calls (msgs ++ [Msg.assistant m]) with
            | error e => simp [ExecResult.rounds]
            | ok msgs' =>
                calc (executeAux env model fuel msgs' (r + 1)).rounds
                    ≤ (r + 1) + fuel := ih msgs' (r + 1)
                  _ ≤ r + (fuel + 1) := by omega

theorem processToolCalls_ok (env : Env) :
    ∀ (tcs : List ToolCall) (base : List Msg),
      (∀ tc ∈ tcs, ∃ v, env.jsonLoads tc.arguments = .ok v) →
      ∃ results, processToolCalls env tcs base = .ok (base ++ results) ∧
        results.map Msg.toolCallId = tcs.map (fun tc => some tc.id) := by
  intro tcs
  induction tcs with
  | nil =>
      intro base _
      exact ⟨[], by simp [processToolCalls], rfl⟩
  | cons tc rest ih =>
      intro base hdec
      obtain ⟨v, hv⟩ := hdec tc (by simp)
      obtain ⟨results, hres, hids⟩ :=
        ih (base ++ [Msg.tool tc.id (callResult env tc.name v)])
          (fun tc' h => hdec tc' (by simp [h]))
      refine ⟨Msg.tool tc.id (callResult env tc.name v) :: results, ?_, ?_⟩
      · simp only [processToolCalls, hv]
        rw [hres]
        simp
      · simp [Msg.toolCallId, hids]

theorem processToolCalls_split (env : Env) :
    ∀ (pre : List ToolCall) (tc : ToolCall) (post : List ToolCall) (base : List Msg),
      (∀ tc' ∈ pre ++ tc :: post, ∃ v, env.jsonLoads tc'.arguments = .ok v) →
      ∃ rpre rpost v, env.jsonLoads tc.arguments = .ok v ∧
        rpre.length = pre.length ∧ rpost.length = post.length ∧
        processToolCalls env (pre ++ tc :: post) base =
          .ok (base ++ (rpre ++ Msg.tool tc.id (callResult env tc.name v) :: rpost)) := by
  intro pre
  induction pre with
  | nil =>
      intro tc post base hdec
      obtain ⟨v, hv⟩ := hdec tc (by simp)
      obtain ⟨results, hres, hids⟩ :=
        processToolCalls_ok env post (base ++ [Msg.tool tc.id (callResult env tc.name v)])
          (fun tc' h => hdec tc' (by simp [h]))
      refine ⟨[], results, v, hv, rfl, ?_, ?_⟩
      · have := congrArg List.length hids
        simpa using this
      · simp only [List.nil_append, processToolCalls, hv]
        rw [hres]
        simp
  | cons p pre ih =>
      intro tc post base hdec
      obtain ⟨vp, hvp⟩ := hdec p (by simp)
      obtain ⟨rpre, rpost, v, hv, hlpre, hlpost, hres⟩ :=
        ih tc post (base ++ [Msg.tool p.id (callResult env p.name vp)])
          (fun tc' h => hdec tc' (by simp at h ⊢; tauto))
      refine ⟨Msg.tool p.id (callResult env p.name vp) :: rpre, rpost, v, hv, ?_, hlpost, ?_⟩
      · simp [hlpre]
      · simp only [List.cons_append, processToolCalls, hvp, List.append_eq]
        rw [hres]
        simp

theorem executeAux_step (env : Env) (model : String) (fuel r : Nat)
    (msgs : List Msg) (m : ModelMsg) (msgs' : List Msg)
    (hm : env.completions model msgs = .ok m)
    (hne : m.tool_calls ≠ [])
    (hp : processToolCalls env m.tool_calls (msgs ++ [Msg.assistant m]) = .ok msgs') :
    executeAux env model (fuel + 1) msgs r = executeAux env model fuel msgs' (r + 1) := by
  have hie : m.tool_calls.isEmpty = false := by
    cases hmt : m.tool_calls with
    | nil => exact absurd hmt hne
    | cons a l => rfl
  simp only [executeAux, hm, hie, Bool.false_eq_true, if_false, hp]

theorem executeAux_exhausts (env : Env) (model : String)
    (hresp : ∀ md msgs, ∃ m, env.completions md msgs = .ok m ∧ m.tool_calls ≠ [])
    (hdec : ∀ md msgs m, env.completions md msgs = .ok m →
      ∀ tc ∈ m.tool_calls, ∃ v, env.jsonLoads tc.arguments = .ok v) :
    ∀ (fuel : Nat) (msgs : List Msg) (r : Nat),
      ∃ suffix, executeAux env model fuel msgs r = .exhausted (msgs ++ suffix) (r + fuel) := by
  intro fuel
  induction fuel with
  | zero =>
      intro msgs r
      exact ⟨[], by simp [executeAux]⟩
  | succ fuel ih =>
      intro msgs r
      obtain ⟨m, hm, hne⟩ := hresp model msgs
      obtain ⟨results, hres, _⟩ :=
        processToolCalls_ok env m.tool_calls (msgs ++ [Msg.assistant m])
          (hdec model msgs m hm)
      obtain ⟨suffix, hsuf⟩ := ih ((msgs ++ [Msg.assistant m]) ++ results) (r + 1)
      refine ⟨[Msg.assistant m] ++ results ++ suffix, ?_⟩
      rw [executeAux_step env model fuel r msgs m ((msgs ++ [Msg.assistant m]) ++ results) hm hne hres]
      rw [hsuf]
      congr 1
      · simp [List.append_assoc]
      · omega

theorem executeAux_not_raised (env : Env) (model : String)
    (hcomp : ∀ md msgs, ∃ m, env.completions md msgs = .ok m)
    (hdec : ∀ md msgs m, env.completions md msgs = .ok m →
      ∀ tc ∈ m.tool_calls, ∃ v, env.jsonLoads tc.arguments = .ok v) :
    ∀ (fuel : Nat) (msgs : List Msg) (r : Nat) (e : String) (n : Nat),
      executeAux env model fuel msgs r ≠ .raised e n := by
  intro fuel
  induction fuel with
  | zero =>
      intro msgs r e n
      simp [executeAux]
  | succ fuel ih =>
      intro msgs r e n
      obtain ⟨m, hm⟩ := hcomp model msgs
      by_cases hmt : m.tool_calls = []
      · have hie : m.tool_calls.isEmpty = true := by rw [hmt]; rfl
        simp [executeAux, hm, hie]
      · obtain ⟨results, hres, _⟩ :=
          processToolCalls_ok env m.tool_calls (msgs ++ [Msg.assistant m])
            (hdec model msgs m hm)
        rw [executeAux_step env model fuel r msgs m ((msgs ++ [Msg.assistant m]) ++ results) hm hmt hres]
        exact ih _ _ _ _

-- ═══════════════════════════════════════════════════════════════════
-- Claim theorems
-- ═══════════════════════════════════════════════════════════════════

/-- **C1**: For every `max_iterations = N ≥ 1`, `Agent.execute` performs
    at most `N` request/response rounds (for any endpoint `env2`); and
    when every model response requests a tool call (with JSON-decodable
    arguments, per the endpoint contract), the loop terminates after
    exactly `N` rounds in the exhausted state and returns the content of
    the last conversation message as a degraded result, without raising
    an exception. -/
theorem c1_bounded_iterations (env env2 : Env) (a : Agent) (task : String)
    (mo : Option String) (N : Nat) (hN : 1 ≤ N) (hmax : a.max_iterations = N)
    (hresp : ∀ md msgs, ∃ m, env.completions md msgs = .ok m ∧ m.tool_calls ≠ [])
    (hdec : ∀ md msgs m, env.completions md msgs = .ok m →
      ∀ tc ∈ m.tool_calls, ∃ v, env.jsonLoads tc.arguments = .ok v) :
    (a.executeResult env2 task mo).rounds ≤ N ∧
    (a.executeResult env task mo).isExhausted = true ∧
    (a.executeResult env task mo).rounds = N ∧
    a.execute env task mo = .ok (lastContent (a.executeResult env task mo).conv) ∧
    (a.executeResult env task mo).conv ≠ [] := by
  obtain ⟨suffix, hsuf⟩ :=
    executeAux_exhausts env (mo.getD a.model) hresp hdec a.max_iterations
      (a.initMessages env task) 0
  have hres : a.executeResult env task mo =
      .exhausted (a.initMessages env task ++ suffix) a.max_iterations := by
    rw [Agent.executeResult, hsuf, Nat.zero_add]
  refine ⟨?_, ?_, ?_, ?_, ?_⟩
  · have := executeAux_rounds_le env2 (mo.getD a.model) a.max_iterations
      (a.initMessages env2 task) 0
    rw [Agent.executeResult]
    omega
  · rw [hres]; rfl
  · rw [hres, hmax]; rfl
  · rw [Agent.execute, hres]
    rfl
  · rw [hres]
    simp [Agent.initMessages, ExecResult.conv]

/-- Evaluation of C1 on a concrete endpoint that always requests a tool
    call: the research agent exhausts its 15 iterations and returns the
    last message content, while the bound also holds for an endpoint
    whose first completion raises. -/
theorem c1_witness :
    (agentW.executeResult envTransportFail "t" none).rounds ≤ 15 ∧
    (agentW.executeResult envAlwaysTool "t" none).isExhausted = true ∧
    (agentW.executeResult envAlwaysTool "t" none).rounds = 15 ∧
    agentW.execute envAlwaysTool "t" none =
      .ok (lastContent (agentW.executeResult envAlwaysTool "t" none).conv) ∧
    (agentW.executeResult envAlwaysTool "t" none).conv ≠ [] :=
  c1_bounded_iterations envAlwaysTool envTransportFail agentW "t" none 15
    (by norm_num) rfl
    (fun _ _ => ⟨msgW, rfl, by decide⟩)
    (fun _ _ _ _ tc _ => ⟨Json.obj [], rfl⟩)

/-- **C2**: Within one round of `Agent.execute`, a requested tool call
    whose tool raises (or whose name is not in the registry) yields
    exactly one tool-result message, located at the call's position
    among the appended results, whose content is the serialization of a
    JSON object with an `error` key; and the loop continues to the next
    model round rather than terminating the conversation. -/
theorem c2_tool_failure_contained (env : Env) (model : String) (fuel r : Nat)
    (msgs : List Msg) (m : ModelMsg) (pre post : List ToolCall) (tc : ToolCall)
    (v : Json)
    (hm : env.completions model msgs = .ok m)
    (hsplit : m.tool_calls = pre ++ tc :: post)
    (hdecAll : ∀ tc' ∈ m.tool_calls, ∃ w, env.jsonLoads tc'.arguments = .ok w)
    (hv : env.jsonLoads tc.arguments = .ok v)
    (hfail : env.toolFn tc.name = none ∨
      ∃ fn e, env.toolFn tc.name = some fn ∧ fn v = .error e) :
    ∃ rpre rpost content,
      rpre.length = pre.length ∧ rpost.length = post.length ∧
      decodesWithErrorKey content ∧
      processToolCalls env m.tool_calls (msgs ++ [Msg.assistant m]) =
        .ok ((msgs ++ [Msg.assistant m]) ++
          (rpre ++ Msg.tool tc.id content :: rpost)) ∧
      executeAux env model (fuel + 1) msgs r =
        executeAux env model fuel
          ((msgs ++ [Msg.assistant m]) ++ (rpre ++ Msg.tool tc.id content :: rpost))
          (r + 1) := by
  rw [hsplit] at hdecAll
  obtain ⟨rpre, rpost, v', hv', hlpre, hlpost, hres⟩ :=
    processToolCalls_split env pre tc post (msgs ++ [Msg.assistant m]) hdecAll
  have hvv : v' = v := by
    have := hv'.symm.trans hv
    exact Except.ok.inj this
  subst hvv
  have herr : decodesWithErrorKey (callResult env tc.name v') := by
    rcases hfail with hnone | ⟨fn, e, hfn, hfe⟩
    · exact ⟨"Unknown tool: " ++ tc.name, by simp [callResult, hnone]⟩
    · exact ⟨e, by simp [callResult, hfn, hfe]⟩
  have hne : m.tool_calls ≠ [] := by
    rw [hsplit]
    simp
  rw [← hsplit] at hres
  exact ⟨rpre, rpost, callResult env tc.name v', hlpre, hlpost, herr, hres,
    executeAux_step env model fuel r msgs m _ hm hne hres⟩

/-- Evaluation of C2 on a concrete round: the single requested call hits
    an empty registry, one error-payload tool message is appended, and
    the loop proceeds to the next round. -/
theorem c2_witness :
    ∃ rpre rpost content,
      rpre.length = List.length ([] : List ToolCall) ∧
      rpost.length = List.length ([] : List ToolCall) ∧
      decodesWithErrorKey content ∧
      processToolCalls envAlwaysTool msgW.tool_calls
          ([Msg.user "t"] ++ [Msg.assistant msgW]) =
        .ok (([Msg.user "t"] ++ [Msg.assistant msgW]) ++
          (rpre ++ Msg.tool tcW.id content :: rpost)) ∧
      executeAux envAlwaysTool "gpt-4o" (1 + 1) [Msg.user "t"] 0 =
        executeAux envAlwaysTool "gpt-4o" 1
          (([Msg.user "t"] ++ [Msg.assistant msgW]) ++
            (rpre ++ Msg.tool tcW.id content :: rpost)) (0 + 1) :=
  c2_tool_failure_contained envAlwaysTool "gpt-4o" 1 0 [Msg.user "t"] msgW
    [] [] tcW (Json.obj []) rfl rfl
    (fun _ _ => ⟨Json.obj [], rfl⟩) rfl (Or.inl rfl)

/-- **C3**: The tool-result messages appended for one assistant message
    carry the same `tool_call_id` values as the originating requests,
    unchanged and in the same order, and the loop feeds exactly these
    messages into the next round. -/
theorem c3_ids_roundtrip (env : Env) (model : String) (fuel r : Nat)
    (msgs : List Msg) (m : ModelMsg)
    (hm : env.completions model msgs = .ok m)
    (hne : m.tool_calls ≠ [])
    (hdecAll : ∀ tc ∈ m.tool_calls, ∃ v, env.jsonLoads tc.arguments = .ok v) :
    ∃ results,
      processToolCalls env m.tool_calls (msgs ++ [Msg.assistant m]) =
        .ok ((msgs ++ [Msg.assistant m]) ++ results) ∧
      results.map Msg.toolCallId = m.tool_calls.map (fun tc => some tc.id) ∧
      executeAux env model (fuel + 1) msgs r =
        executeAux env model fuel ((msgs ++ [Msg.assistant m]) ++ results) (r + 1) := by
  obtain ⟨results, hres, hids⟩ :=
    processToolCalls_ok env m.tool_calls (msgs ++ [Msg.assistant m]) hdecAll
  exact ⟨results, hres, hids,
    executeAux_step env model fuel r msgs m _ hm hne hres⟩

/-- Evaluation of C3 on a concrete round with one requested call. -/
theorem c3_witness :
    ∃ results,
      processToolCalls envAlwaysTool msgW.tool_calls
          ([Msg.user "u"] ++ [Msg.assistant msgW]) =
        .ok (([Msg.user "u"] ++ [Msg.assistant msgW]) ++ results) ∧
      results.map Msg.toolCallId = msgW.tool_calls.map (fun tc => some tc.id) ∧
      executeAux envAlwaysTool "gpt-4o" (2 + 1) [Msg.user "u"] 0 =
        executeAux envAlwaysTool "gpt-4o" 2
          (([Msg.user "u"] ++ [Msg.assistant msgW]) ++ results) (0 + 1) :=
  c3_ids_roundtrip envAlwaysTool "gpt-4o" 2 0 [Msg.user "u"] msgW rfl
    (by decide) (fun _ _ => ⟨Json.obj [], rfl⟩)

/-- **C5** (counterexample to the claim as stated): when the model emits
    a tool call whose arguments string is not valid JSON, the
    `json.loads` at src/agents.py line 123 sits outside the try block,
    and the exception propagates out of `Agent.execute` — here the
    requested tool exists and would succeed, yet `execute` raises. -/
theorem c5_counterexample :
    agentW.execute envBadArgs "task" none =
      .error "Expecting value: line 1 column 1 (char 0)" := rfl

/-- **C5** (amended): every failure of the tool invocation itself —
    unknown tool name, or an exception raised while calling the tool
    with its decoded arguments (the registry `toolFn` is arbitrary
    here) — is recovered locally; provided each completion succeeds and
    each requested call's argument string decodes, no exception
    propagates out of `Agent.execute`. -/
theorem c5_amended_tool_failures_contained (env : Env) (a : Agent)
    (task : String) (mo : Option String)
    (hcomp : ∀ md msgs, ∃ m, env.completions md msgs = .ok m)
    (hdec : ∀ md msgs m, env.completions md msgs = .ok m →
      ∀ tc ∈ m.tool_calls, ∃ v, env.jsonLoads tc.arguments = .ok v) :
    ∃ s, a.execute env task mo = .ok s := by
  rw [Agent.execute]
  cases hres : a.executeResult env task mo with
  | done answer conv rounds => exact ⟨answer, rfl⟩
  | exhausted conv rounds => exact ⟨lastContent conv, rfl⟩
  | raised e n =>
      exfalso
      have := executeAux_not_raised env (mo.getD a.model) hcomp hdec
        a.max_iterations (a.initMessages env task) 0 e n
      rw [Agent.executeResult] at hres
      exact this hres

/-- Evaluation of the amended C5: with an always-tool-calling endpoint
    and an empty registry (every call is an unknown-tool failure),
    `Agent.execute` still returns normally. -/
theorem c5_witness :
    ∃ s, agentW.execute envAlwaysTool "t" none = .ok s :=
  c5_amended_tool_failures_contained envAlwaysTool agentW "t" none
    (fun _ _ => ⟨msgW, rfl⟩)
    (fun _ _ _ _ tc _ => ⟨Json.obj [], rfl⟩)

/-- **C4**: The fallback keyword classifier lower-cases the question,
    counts matches against the three fixed keyword sets (the scores
    below), and returns the category with the highest nonzero count
    under the tie-break priority news > portfolio > research; all-zero
    counts default to `research`.  In particular the second conjunct
    covers equal nonzero news and portfolio counts with research not
    greater: `news`. -/
theorem c4_keyword_classifier (question : String) :
    (scoreOf news_words (pyLower question) = 0 ∧
     scoreOf portfolio_words (pyLower question) = 0 ∧
     scoreOf research_words (pyLower question) = 0 →
       keyword_classify question = "research") ∧
    (0 < scoreOf news_words (pyLower question) ∧
     scoreOf portfolio_words (pyLower question) ≤ scoreOf news_words (pyLower question) ∧
     scoreOf research_words (pyLower question) ≤ scoreOf news_words (pyLower question) →
       keyword_classify question = "news") ∧
    (scoreOf news_words (pyLower question) < scoreOf portfolio_words (pyLower question) ∧
     scoreOf research_words (pyLower question) ≤ scoreOf portfolio_words (pyLower question) →
       keyword_classify question = "portfolio") ∧
    (scoreOf news_words (pyLower question) < scoreOf research_words (pyLower question) ∧
     scoreOf portfolio_words (pyLower question) < scoreOf research_words (pyLower question) →
       keyword_classify question = "research") := by
  have hkc : keyword_classify question =
      (if max (scoreOf news_words (pyLower question))
            (max (scoreOf portfolio_words (pyLower question))
              (scoreOf research_words (pyLower question))) == 0 then "research"
       else if scoreOf news_words (pyLower question) ==
            max (scoreOf news_words (pyLower question))
              (max (scoreOf portfolio_words (pyLower question))
                (scoreOf research_words (pyLower question))) then "news"
       else if scoreOf portfolio_words (pyLower question) ==
            max (scoreOf news_words (pyLower question))
              (max (scoreOf portfolio_words (pyLower question))
                (scoreOf research_words (pyLower question))) then "portfolio"
       else "research") := rfl
  set n := scoreOf news_words (pyLower question) with hn
  set p := scoreOf portfolio_words (pyLower question) with hp
  set r := scoreOf research_words (pyLower question) with hr
  refine ⟨?_, ?_, ?_, ?_⟩
  · rintro ⟨h1, h2, h3⟩
    have hm : max n (max p r) = 0 := by omega
    rw [hkc, hm]
    rfl
  · rintro ⟨h1, h2, h3⟩
    have hm : max n (max p r) = n := by omega
    have hne : n ≠ 0 := by omega
    rw [hkc, hm]
    simp [hne]
  · rintro ⟨h1, h2⟩
    have hm : max n (max p r) = p := by omega
    have hne : p ≠ 0 := by omega
    have hnp : n ≠ p := by omega
    rw [hkc, hm]
    simp [hne, hnp]
  · rintro ⟨h1, h2⟩
    have hm : max n (max p r) = r := by omega
    have hne : r ≠ 0 := by omega
    have hnr : n ≠ r := by omega
    have hpr : p ≠ r := by omega
    rw [hkc, hm]
    simp [hne, hnr, hpr]

/-- Evaluation of C4 on the tie-break case itself: two news keywords and
    two portfolio keywords, no research keyword — classified `news`. -/
theorem c4_witness :
    0 < scoreOf news_words (pyLower "news nachrichten portfolio positionen") ∧
    scoreOf portfolio_words (pyLower "news nachrichten portfolio positionen") ≤
      scoreOf news_words (pyLower "news nachrichten portfolio positionen") ∧
    scoreOf research_words (pyLower "news nachrichten portfolio positionen") ≤
      scoreOf news_words (pyLower "news nachrichten portfolio positionen") ∧
    keyword_classify "news nachrichten portfolio positionen" = "news" :=
  ⟨by decide, by decide, by decide,
    (c4_keyword_classifier "news nachrichten portfolio positionen").2.1
      ⟨by decide, by decide, by decide⟩⟩

theorem handle_chat_message_snd (env : Env) (question : String)
    (history : List ChatMessage) (model : Option String) :
    (handle_chat_message env question history model).2 =
      resolvedIntentOf env question model := by
  cases hex : (agent_creators (resolvedIntentOf env question model) model).execute env
      (build_chat_task env question (resolvedIntentOf env question model) history)
      model with
  | ok response => simp [handle_chat_message, hex]
  | error e => simp [handle_chat_message, hex]

/-- **C6**: `handle_chat_message` never lets an execution exception
    escape: whenever the routed agent's `execute` raises `e`, the
    orchestrator returns the apologetic message carrying the error text,
    paired with the resolved intent. -/
theorem c6_exception_boundary (env : Env) (question : String)
    (history : List ChatMessage) (model : Option String) (e : String)
    (hfail : (agent_creators (resolvedIntentOf env question model) model).execute env
        (build_chat_task env question (resolvedIntentOf env question model) history)
        model = .error e) :
    handle_chat_message env question history model =
      (apologyPrefix ++ e, resolvedIntentOf env question model) := by
  simp [handle_chat_message, hfail]

/-- Evaluation of C6: a transport failure in the first completion call
    surfaces as the apologetic message, with the keyword-fallback intent
    `research`. -/
theorem c6_witness :
    handle_chat_message envTransportFail "hallo" [] none =
      (apologyPrefix ++ "boom", "research") :=
  c6_exception_boundary envTransportFail "hallo" [] none "boom" rfl

/-- **C7**: the intent `multi` is remapped to `research` before agent
    selection, so `handle_chat_message` never returns (nor dispatches
    to) the intent `multi`. -/
theorem c7_multi_remapped (env : Env) (question : String)
    (history : List ChatMessage) (model : Option String) :
    (handle_chat_message env question history model).2 =
      resolveIntent (classify_intent env question (model.getD "gpt-4o-mini")) ∧
    (handle_chat_message env question history model).2 ≠ "multi" ∧
    (classify_intent env question (model.getD "gpt-4o-mini") = "multi" →
      (handle_chat_message env question history model).2 = "research") := by
  refine ⟨handle_chat_message_snd env question history model, ?_, ?_⟩
  · rw [handle_chat_message_snd env question history model]
    rw [resolvedIntentOf, resolveIntent]
    by_cases hc : classify_intent env question (model.getD "gpt-4o-mini") = "multi"
    · simp [hc]
    · simp [hc]
  · intro hm
    rw [handle_chat_message_snd env question history model]
    simp [resolvedIntentOf, resolveIntent, hm]

/-- Evaluation of C7: a classification endpoint that answers `multi`
    still yields the returned intent `research`. -/
theorem c7_witness :
    (handle_chat_message envMulti "q" [] none).2 = "research" :=
  (c7_multi_remapped envMulti "q" [] none).2.2 rfl

/-- **C8**: `save_chat_history` persists exactly the most recent
    `MAX_CHAT_MESSAGES = 50` entries (the dropped part is the oldest
    prefix), and `load_chat_history` returns at most the most recent 50
    entries of the persisted log (and `[]` for a missing or undecodable
    file). -/
theorem c8_history_cap (history stored : List ChatMessage) :
    (save_chat_history history).length = min MAX_CHAT_MESSAGES history.length ∧
    history = history.take (history.length - MAX_CHAT_MESSAGES) ++
      save_chat_history history ∧
    (load_chat_history (some stored)).length = min MAX_CHAT_MESSAGES stored.length ∧
    stored = stored.take (stored.length - MAX_CHAT_MESSAGES) ++
      load_chat_history (some stored) ∧
    load_chat_history none = [] := by
  refine ⟨?_, ?_, ?_, ?_, rfl⟩
  · rw [save_chat_history, List.length_drop]
    omega
  · rw [save_chat_history]
    exact (List.take_append_drop _ _).symm
  · rw [load_chat_history, List.length_drop]
    omega
  · rw [load_chat_history]
    exact (List.take_append_drop _ _).symm

theorem add_loop_none (ticker : String) (s c : Rat) :
    ∀ (l : List Holding), (∀ h ∈ l, h.ticker ≠ ticker) →
      add_loop ticker s c l = none := by
  intro l
  induction l with
  | nil => intro _; rfl
  | cons h rest ih =>
      intro habs
      have hne : h.ticker ≠ ticker := habs h (by simp)
      have hbeq : (h.ticker == ticker) = false := by
        simp [hne]
      rw [add_loop, hbeq]
      simp only [Bool.false_eq_true, if_false]
      rw [ih (fun h' hh => habs h' (by simp [hh]))]

theorem add_loop_found (ticker : String) (s c : Rat) :
    ∀ (pre : List Holding) (h0 : Holding) (post : List Holding),
      (∀ h ∈ pre, h.ticker ≠ ticker) →
      h0.ticker = ticker →
      h0.shares + s ≠ 0 →
      add_loop ticker s c (pre ++ h0 :: post) =
        some (.ok (pre ++
          { h0 with
            cost_basis_eur := some (round4 ((h0.shares * h0.costBasis + s * c) / (h0.shares + s))),
            shares := h0.shares + s,
            cost_basis := none } :: post,
          PortfolioMsg.updated ticker (h0.shares + s)
            (round4 ((h0.shares * h0.costBasis + s * c) / (h0.shares + s))))) := by
  intro pre
  induction pre with
  | nil =>
      intro h0 post _ ht hs
      have hbeq : (h0.ticker == ticker) = true := by simp [ht]
      simp only [List.nil_append, add_loop, hbeq, if_true, if_neg hs]
  | cons h pre ih =>
      intro h0 post habs ht hs
      have hne : h.ticker ≠ ticker := habs h (by simp)
      have hbeq : (h.ticker == ticker) = false := by simp [hne]
      simp only [List.cons_append, add_loop, hbeq, Bool.false_eq_true, if_false,
        List.append_eq]
      rw [ih h0 post (fun h' hh => habs h' (by simp [hh])) ht hs]

/-- **C9**: updating an existing uniquely-held ticker replaces its
    shares by `s0 + s1` and its cost basis by the rounded share-weighted
    average (dropping the legacy `cost_basis` key), leaving every other
    holding unchanged in place; an absent ticker is appended as a fresh
    holding with today's date. -/
theorem c9_weighted_average_update (pre post : List Holding) (h0 : Holding)
    (ticker : String) (s1 c1 : Rat) (today : String)
    (hticker : h0.ticker = pyStrip (pyUpper ticker))
    (hpre : ∀ h ∈ pre, h.ticker ≠ pyStrip (pyUpper ticker))
    (hpost : ∀ h ∈ post, h.ticker ≠ pyStrip (pyUpper ticker))
    (hs0 : 0 < h0.shares)
    (hsum : 0 < h0.shares + s1) :
    add_to_portfolio (pre ++ h0 :: post) ticker s1 c1 today =
      .ok (pre ++
        { h0 with
          cost_basis_eur := some (round4 ((h0.shares * h0.costBasis + s1 * c1) / (h0.shares + s1))),
          shares := h0.shares + s1,
          cost_basis := none } :: post,
        PortfolioMsg.updated (pyStrip (pyUpper ticker)) (h0.shares + s1)
          (round4 ((h0.shares * h0.costBasis + s1 * c1) / (h0.shares + s1)))) ∧
    add_to_portfolio (pre ++ post) ticker s1 c1 today =
      .ok ((pre ++ post) ++
        [{ ticker := pyStrip (pyUpper ticker), shares := s1,
           cost_basis_eur := some (round4 c1), cost_basis := none,
           date_added := some today }],
        PortfolioMsg.added (pyStrip (pyUpper ticker)) s1 c1) := by
  constructor
  · rw [add_to_portfolio,
      add_loop_found (pyStrip (pyUpper ticker)) s1 c1 pre h0 post hpre hticker hsum.ne']
  · rw [add_to_portfolio, add_loop_none (pyStrip (pyUpper ticker)) s1 c1 (pre ++ post)
      (fun h hh => by
        rcases List.mem_append.mp hh with h1 | h2
        · exact hpre h h1
        · exact hpost h h2)]

/-- Evaluation of C9: adding one share at cost 20 to a one-share holding
    at cost 10 yields two shares at the weighted average; adding to an
    empty portfolio appends the new holding. -/
theorem c9_witness :
    add_to_portfolio ([] ++ holdingW :: []) "aapl " 1 20 "2024-01-02" =
      .ok ([] ++
        { holdingW with
          cost_basis_eur := some (round4 ((holdingW.shares * holdingW.costBasis + 1 * 20) / (holdingW.shares + 1))),
          shares := holdingW.shares + 1,
          cost_basis := none } :: [],
        PortfolioMsg.updated (pyStrip (pyUpper "aapl ")) (holdingW.shares + 1)
          (round4 ((holdingW.shares * holdingW.costBasis + 1 * 20) /
            (holdingW.shares + 1)))) ∧
    add_to_portfolio ([] ++ []) "aapl " 1 20 "2024-01-02" =
      .ok (([] ++ []) ++
        [{ ticker := pyStrip (pyUpper "aapl "), shares := 1,
           cost_basis_eur := some (round4 20), cost_basis := none,
           date_added := some "2024-01-02" }],
        PortfolioMsg.added (pyStrip (pyUpper "aapl ")) 1 20) :=
  c9_weighted_average_update [] [] holdingW "aapl " 1 20 "2024-01-02"
    (by decide) (by simp) (by simp) (by norm_num [holdingW]) (by norm_num [holdingW])

theorem length_filter_lt_of_mem_false (p : Holding → Bool) :
    ∀ (l : List Holding) (x : Holding), x ∈ l → p x = false →
      (l.filter p).length < l.length := by
  intro l
  induction l with
  | nil => intro x hx _; cases hx
  | cons a l ih =>
      intro x hx hpx
      rcases List.mem_cons.mp hx with hax | hmem
      · subst hax
        have hle := List.length_filter_le p l
        rw [List.filter_cons, if_neg (by simp [hpx])]
        simp only [List.length_cons]
        omega
      · cases hpa : p a with
        | false =>
            have := ih x hmem hpx
            rw [List.filter_cons, if_neg (by simp [hpa])]
            simp only [List.length_cons]
            omega
        | true =>
            have := ih x hmem hpx
            rw [List.filter_cons, if_pos (by simp [hpa])]
            simp only [List.length_cons]
            omega

/-- **C10**: removing a ticker absent from the stored portfolio (after
    upper-casing and stripping) performs no write and returns the
    not-found message; removing a present ticker saves the portfolio
    with every holding of that ticker removed and all other holdings
    preserved in order. -/
theorem c10_remove_semantics (portfolio : List Holding) (ticker : String) :
    ((∀ h ∈ portfolio, h.ticker ≠ pyStrip (pyUpper ticker)) →
      remove_from_portfolio portfolio ticker =
        (none, PortfolioMsg.notFound (pyStrip (pyUpper ticker)))) ∧
    ((∃ h ∈ portfolio, h.ticker = pyStrip (pyUpper ticker)) →
      remove_from_portfolio portfolio ticker =
        (some (portfolio.filter (fun h => h.ticker != pyStrip (pyUpper ticker))),
          PortfolioMsg.removed (pyStrip (pyUpper ticker))) ∧
      List.Sublist (portfolio.filter (fun h => h.ticker != pyStrip (pyUpper ticker)))
        portfolio ∧
      (∀ h ∈ portfolio.filter (fun h => h.ticker != pyStrip (pyUpper ticker)),
        h.ticker ≠ pyStrip (pyUpper ticker)) ∧
      (∀ h ∈ portfolio, h.ticker ≠ pyStrip (pyUpper ticker) →
        h ∈ portfolio.filter (fun h => h.ticker != pyStrip (pyUpper ticker)))) := by
  constructor
  · intro habs
    have hfe : portfolio.filter (fun h => h.ticker != pyStrip (pyUpper ticker)) =
        portfolio := by
      rw [List.filter_eq_self]
      intro h hh
      simp [habs h hh]
    rw [remove_from_portfolio]
    simp only [hfe, beq_self_eq_true, if_true]
  · rintro ⟨h0, hmem, ht⟩
    have hp0 : (fun h => h.ticker != pyStrip (pyUpper ticker)) h0 = false := by
      simp [ht]
    have hlt := length_filter_lt_of_mem_false
      (fun h => h.ticker != pyStrip (pyUpper ticker)) portfolio h0 hmem hp0
    have hbeq : ((portfolio.filter
        (fun h => h.ticker != pyStrip (pyUpper ticker))).length ==
        portfolio.length) = false := by
      simp [Nat.ne_of_lt hlt]
    refine ⟨?_, List.filter_sublist portfolio, ?_, ?_⟩
    · simp only [remove_from_portfolio, hbeq, Bool.false_eq_true, if_false]
    · intro h hh
      have := (List.mem_filter.mp hh).2
      simpa using this
    · intro h hh hne
      exact List.mem_filter.mpr ⟨hh, by simp [hne]⟩

/-- Evaluation of C10: removing an absent ticker from a one-holding
    portfolio writes nothing; removing `aapl ` (normalized `AAPL`)
    filters the holding out. -/
theorem c10_witness :
    remove_from_portfolio [holdingW] "msft" =
      (none, PortfolioMsg.notFound (pyStrip (pyUpper "msft"))) ∧
    remove_from_portfolio [holdingW] "aapl " =
      (some ([holdingW].filter (fun h => h.ticker != pyStrip (pyUpper "aapl "))),
        PortfolioMsg.removed (pyStrip (pyUpper "aapl "))) :=
  ⟨(c10_remove_semantics [holdingW] "msft").1 (by decide),
    ((c10_remove_semantics [holdingW] "aapl ").2 ⟨holdingW, by simp, by decide⟩).1⟩

end PortfolioAgent
